import Mathlib

set_option maxHeartbeats 1000000

/-! Verification of the parameter-synchronization and renderer-selection core of
`src/cases/common.js`: the GUI parameter registry (`registerGuiParameter`,
`registerGuiSelectParameter`, `getGuiParameterValue`) and the renderer selector
(`regenerateLayer`), shallowly embedded as pure Lean functions. -/

/-- Model of the JavaScript values that can live in the `guiParams` table:
numbers (finite rationals plus `NaN`, which `parseFloat` can produce),
booleans, strings and function values (action parameters). -/
inductive GuiValue where
  | num (q : ℚ)
  | nan
  | bool (b : Bool)
  | str (s : String)
  | fn
deriving DecidableEq

/-- JavaScript truthiness of a `GuiValue`: `0`, `NaN`, `false` and `""` are
falsy, everything else modelled here is truthy. -/
def jsTruthy : GuiValue → Bool
  | GuiValue.num q => decide (q ≠ 0)
  | GuiValue.nan => false
  | GuiValue.bool b => b
  | GuiValue.str s => decide (s ≠ "")
  | GuiValue.fn => true

/-- Accumulate a base-10 natural number from a list of decimal digit
characters, most significant first (the running `a * 10 + digit` loop a
decimal scanner performs). -/
def digitsToNat (ds : List Char) : Nat :=
  ds.foldl (fun a c => a * 10 + (c.toNat - 48)) 0

/-- Strip an optional leading sign character, returning whether the number is
negated together with the remaining characters. -/
def stripSign : List Char → Bool × List Char
  | [] => (false, [])
  | c :: t => if c = '-' then (true, t) else if c = '+' then (false, t) else (false, c :: t)

/-- The fractional digits after an optional decimal point. -/
def fracDigits : List Char → List Char
  | [] => []
  | c :: t => if c = '.' then t.takeWhile Char.isDigit else []

/-- Magnitude of a decimal literal: leading integer digits, then an optional
point and fractional digits; `none` when no digit at all was found (`NaN`). -/
def parseMag (cs : List Char) : Option ℚ :=
  let ip := cs.takeWhile Char.isDigit
  let rest := cs.dropWhile Char.isDigit
  let fp := fracDigits rest
  if ip.isEmpty && fp.isEmpty then none
  else if fp.isEmpty then some (digitsToNat ip : ℚ)
  else some ((digitsToNat ip : ℚ) + (digitsToNat fp : ℚ) / (10 : ℚ) ^ fp.length)

/-- Model of JavaScript `parseFloat` on the token strings this application
uses: an optional sign followed by a decimal literal, trailing garbage
ignored, `none` standing for `NaN`.  (Exponent forms, `Infinity` and leading
whitespace never occur in this repository's URL tokens and are not
modelled.) -/
def jsParseFloat (s : String) : Option ℚ :=
  let p := stripSign s.data
  match parseMag p.2 with
  | none => none
  | some m => some (if p.1 then -m else m)

/-- Fuel-driven digit emitter: peels `n % 10` digits onto `acc`; `fuel ≥ n`
makes it total. -/
def natToCharsAux : Nat → Nat → List Char → List Char
  | 0, _, acc => acc
  | _ + 1, 0, acc => acc
  | fuel + 1, n + 1, acc => natToCharsAux fuel ((n + 1) / 10) (Nat.digitChar ((n + 1) % 10) :: acc)

/-- Decimal digit characters of a natural number, most significant first. -/
def natToChars (n : Nat) : List Char :=
  if n = 0 then ['0'] else natToCharsAux n n []

/-- Model of JavaScript `Number.prototype.toString` (base 10) on integer
values, as produced by the slider widgets of this repository (whose declared
ranges and steps are integral). -/
def intToString (n : ℤ) : String :=
  if n < 0 then String.mk ('-' :: natToChars n.natAbs) else String.mk (natToChars n.natAbs)

/-- Model of `Number.prototype.toString` on rational number values, defined on
the integer-valued numbers that this repository's numeric parameters take. -/
def jsNumToString (q : ℚ) : Option String :=
  if q.den = 1 then some (intToString q.num) else none

/-- The kind-specific domain descriptor passed to `registerGuiParameter`:
either a numeric `(min, max, step)` triple or a pair of string tokens for a
boolean toggle (`values[0]` encodes `true`). -/
inductive ParamSpec where
  | numeric (lo hi step : ℚ)
  | toggle (trueTok falseTok : String)
deriving DecidableEq

/-- Wrap a `parseFloat` result back into a JavaScript number value. -/
def numOf : Option ℚ → GuiValue
  | some q => GuiValue.num q
  | none => GuiValue.nan

/-- Decoding of a URL token by `registerGuiParameter`
(`isNumeric ? parseFloat(value) : value === values[0]`, lines 355 and 359-361
of `src/cases/common.js`). -/
def decodeParamToken : ParamSpec → String → GuiValue
  | ParamSpec.numeric _ _ _, tok => numOf (jsParseFloat tok)
  | ParamSpec.toggle tTok _, tok => GuiValue.bool (tok == tTok)

/-- Initial-value hydration performed by `registerGuiParameter` (lines
357-362): the default unless `link.track` returned a non-null token, in which
case the token is decoded with no domain validation. -/
def hydrateInitialParam (spec : ParamSpec) (dflt : GuiValue) (linkTok : Option String) : GuiValue :=
  match linkTok with
  | none => dflt
  | some tok => decodeParamToken spec tok

/-- Initial-value hydration performed by `registerGuiSelectParameter` (lines
437-439): `fromUrl && allowed.has(fromUrl) ? fromUrl : defaultValue`, where a
null or empty string is falsy. -/
def selectInitial (allowed : List String) (dflt : String) (fromUrl : Option String) : String :=
  match fromUrl with
  | none => dflt
  | some tok => if tok ≠ "" ∧ tok ∈ allowed then tok else dflt

/-- `getGuiParameterValue` (lines 406-420): the stored live value when the id
is registered, otherwise a best-effort read of the raw URL token — numeric
parse, then the `'true'`/`'false'` literals, then the raw string, with `none`
(JavaScript `null`) for an absent or empty token. -/
def getGuiParameterValue (stored : Option GuiValue) (urlTok : Option String) : Option GuiValue :=
  match stored with
  | some v => some v
  | none =>
    let raw := urlTok.getD ""
    match jsParseFloat raw with
    | some q => some (GuiValue.num q)
    | none =>
      if raw = "true" ∨ raw = "false" then some (GuiValue.bool (raw == "true"))
      else if raw = "" then none
      else some (GuiValue.str raw)

/-- Observable outcome of one external-URL-change handler invocation: the
stored live value afterwards, whether the widget display was refreshed, and
the `callback` invocations `(value, isInitial)` it made. -/
structure TrackOutcome where
  stored : GuiValue
  displayUpdated : Bool
  calls : List (GuiValue × Bool)
deriving DecidableEq

/-- The `link.track` handler installed by `registerGuiParameter` (lines
354-356): it only invokes `callback(decoded, false)` — it never validates the
token, never touches `guiParams` and never refreshes the widget. -/
def paramTrack (spec : ParamSpec) (live : GuiValue) (tok : String) : TrackOutcome :=
  { stored := live, displayUpdated := false, calls := [(decodeParamToken spec tok, false)] }

/-- The `link.track` handler installed by `registerGuiSelectParameter` (lines
446-453): tokens outside the allowed set are ignored, any allowed token is
stored, the display refreshed and `callback(token, false)` invoked. -/
def selectTrack (allowed : List String) (live : GuiValue) (tok : String) : TrackOutcome :=
  if tok ∈ allowed then
    { stored := GuiValue.str tok, displayUpdated := true, calls := [(GuiValue.str tok, false)] }
  else
    { stored := live, displayUpdated := false, calls := [] }

/-- Whether a URL token decodes to a value inside the declared domain: a
numeric token must parse and land in `[lo, hi]`, a toggle token must be one of
the two declared tokens.  (Used to state claims; the handlers above never
perform this check for `registerGuiParameter`.) -/
def tokenInDomain : ParamSpec → String → Bool
  | ParamSpec.numeric lo hi _, tok =>
    match jsParseFloat tok with
    | some q => decide (lo ≤ q) && decide (q ≤ hi)
    | none => false
  | ParamSpec.toggle tTok fTok, tok => tok == tTok || tok == fTok

/-- Claim C2 as stated: every external-URL-change handler re-decodes the
token and updates the widget and stored value and calls
`onChange(newValue, false)` exactly when the decoded value differs from the
live value and lies within the declared domain. -/
def claimC2 : Prop :=
  (∀ (allowed : List String) (live tok : String),
      selectTrack allowed (GuiValue.str live) tok =
        if tok ≠ live ∧ tok ∈ allowed then
          { stored := GuiValue.str tok, displayUpdated := true,
            calls := [(GuiValue.str tok, false)] }
        else { stored := GuiValue.str live, displayUpdated := false, calls := [] })
  ∧ (∀ (spec : ParamSpec) (live : GuiValue) (tok : String),
      paramTrack spec live tok =
        if decodeParamToken spec tok ≠ live ∧ tokenInDomain spec tok = true then
          { stored := decodeParamToken spec tok, displayUpdated := true,
            calls := [(decodeParamToken spec tok, false)] }
        else { stored := live, displayUpdated := false, calls := [] })

/-- Claim C3 as stated, at the numeric kind: a token that parses to a value
outside the declared `[lo, hi]` range hydrates to the supplied default. -/
def claimC3 : Prop :=
  ∀ (lo hi step : ℚ) (dflt : GuiValue) (tok : String) (q : ℚ),
    jsParseFloat tok = some q → ¬(lo ≤ q ∧ q ≤ hi) →
    hydrateInitialParam (ParamSpec.numeric lo hi step) dflt (some tok) = dflt

/-- Events a lil-gui controller delivers: intermediate `change` events and a
`finishChange` event when the edit interaction completes.  Checkbox and
dropdown controllers fire `finishChange` synchronously right after each
`change`; sliders fire `change` for every intermediate value and
`finishChange` once on release. -/
inductive NumericEvent where
  | change (v : ℤ)
  | finish (v : ℤ)

/-- Widget events for a boolean checkbox controller. -/
inductive ToggleEvent where
  | change (b : Bool)
  | finish (b : Bool)

/-- Widget events for a string dropdown controller. -/
inductive SelectEvent where
  | change (s : String)
  | finish (s : String)

/-- The boolean token encoding of `registerGuiParameter`
(`rawValue ? values[0].toString() : values[1].toString()`, line 395). -/
def encodeToggle (tTok fTok : String) (b : Bool) : String := if b then tTok else fTok

/-- The boolean token decoding of `registerGuiParameter`
(`value === values[0]`, line 355). -/
def decodeToggle (tTok tok : String) : Bool := tok == tTok

/-- The enum encoding: the option token is stored in the URL verbatim. -/
def encodeSelect (tok : String) : String := tok

/-- The enum decoding: the URL token is the value verbatim. -/
def decodeSelect (tok : String) : String := tok

/-- Listeners a numeric registration attaches (lines 389-392): only
`onFinishChange` writes the URL and fires the callback; no `onChange`
listener is attached.  Result: `(URL writes, callback calls)`. -/
def numericOnEvent (id : String) : NumericEvent → List (String × String) × List (ℤ × Bool)
  | NumericEvent.change _ => ([], [])
  | NumericEvent.finish v => ([(id, intToString v)], [(v, false)])

/-- Listeners a boolean registration attaches (lines 394-398): `onChange`
writes the encoded token and fires the callback; no `onFinishChange` listener
is attached. -/
def toggleOnEvent (id tTok fTok : String) : ToggleEvent → List (String × String) × List (Bool × Bool)
  | ToggleEvent.change b => ([(id, encodeToggle tTok fTok b)], [(b, false)])
  | ToggleEvent.finish _ => ([], [])

/-- Listeners an enum registration attaches (lines 455-458): `onFinishChange`
writes the token and fires the callback; no `onChange` listener is
attached. -/
def selectOnEvent (id : String) : SelectEvent → List (String × String) × List (String × Bool)
  | SelectEvent.change _ => ([], [])
  | SelectEvent.finish s => ([(id, s)], [(s, false)])

/-- All URL writes produced by running a handler over an event stream. -/
def handlerWrites {E C : Type} (h : E → List (String × String) × List C) :
    List E → List (String × String)
  | [] => []
  | e :: es => (h e).1 ++ handlerWrites h es

/-- All callback calls produced by running a handler over an event stream. -/
def handlerCalls {E C : Type} (h : E → List (String × String) × List C) : List E → List C
  | [] => []
  | e :: es => (h e).2 ++ handlerCalls h es

/-- A slider drag: `change` for every intermediate value, a final `change`,
then one `finishChange` on release. -/
def sliderDrag (mids : List ℤ) (final : ℤ) : List NumericEvent :=
  mids.map NumericEvent.change ++ [NumericEvent.change final, NumericEvent.finish final]

/-- A checkbox toggle: `change` immediately followed by `finishChange`. -/
def checkboxToggle (b : Bool) : List ToggleEvent := [ToggleEvent.change b, ToggleEvent.finish b]

/-- A dropdown selection: `change` immediately followed by `finishChange`. -/
def dropdownSelect (s : String) : List SelectEvent := [SelectEvent.change s, SelectEvent.finish s]

/-- The observable effects of a registration call, in program order. -/
inductive RegEffect where
  | subscribeLink
  | addController
  | invokeCallback (v : GuiValue) (isInitial : Bool)
  | attachListeners
  | finished
deriving DecidableEq

/-- Recognises the initial `onChange(initialValue, true)` invocation. -/
def isInitialCall : RegEffect → Bool
  | RegEffect.invokeCallback _ true => true
  | _ => false

/-- Effect trace of `registerGuiParameter` (lines 343-400): subscribe to the
link store, add the controller, invoke `callback(initialValue, true)`, attach
the edit listeners, return. -/
def registerGuiParameterTrace (spec : ParamSpec) (dflt : GuiValue) (linkTok : Option String) :
    List RegEffect :=
  [RegEffect.subscribeLink, RegEffect.addController,
   RegEffect.invokeCallback (hydrateInitialParam spec dflt linkTok) true,
   RegEffect.attachListeners, RegEffect.finished]

/-- Effect trace of `registerGuiSelectParameter` (lines 430-459): add the
controller, invoke `callback(initialValue, true)`, subscribe to the link
store, attach the edit listener, return. -/
def registerGuiSelectTrace (allowed : List String) (dflt : String) (fromUrl : Option String) :
    List RegEffect :=
  [RegEffect.addController,
   RegEffect.invokeCallback (GuiValue.str (selectInitial allowed dflt fromUrl)) true,
   RegEffect.subscribeLink, RegEffect.attachListeners, RegEffect.finished]

/-- The renderer-construction capabilities supplied by the embedding
application: whether a WebGPU callback was passed to `createMap`, and whether
its asynchronous construction attempt succeeds. -/
structure RendererConfig where
  webgpuAvailable : Bool
  webgpuSucceeds : Bool
deriving DecidableEq

/-- The rendering layer each builder callback attaches to the map.  Per the
interface contract each builder attaches exactly one layer of its kind (the
builders in `src/cases/animated-features/main.js` each perform one
`map.addLayer` call); a failing WebGPU builder attaches nothing, since its
`addLayer` only runs after its dynamic import resolves. -/
inductive LayerKind where
  | canvasL
  | webglL
  | webgpuL
deriving DecidableEq

/-- The diagnostic message `regenerateLayer` logs when the WebGPU attempt
fails (line 471). -/
def webgpuFailWarn : String := "WebGPU failed to initialize, falling back to WebGL"

/-- `regenerateLayer` (lines 461-484): clear the map's layer collection, read
the requested mode (`getGuiParameterValue('renderer') || 'canvas'`,
represented by `rendererValue`), try WebGPU when requested and available, on
failure log a warning and fall through to the
`requested === 'webgl' || requested === 'webgpu'` WebGL branch, otherwise use
canvas.  Returns the resulting layer collection and the diagnostic warnings;
the prior layers are always discarded by the initial `clear()`. -/
def regenerateLayer (rendererValue : Option GuiValue) (cfg : RendererConfig)
    (prior : List LayerKind) : List LayerKind × List String :=
  let cleared : List LayerKind := []
  let requested : GuiValue :=
    match rendererValue with
    | some v => if jsTruthy v then v else GuiValue.str "canvas"
    | none => GuiValue.str "canvas"
  if requested = GuiValue.str "webgpu" ∧ cfg.webgpuAvailable = true then
    if cfg.webgpuSucceeds then (cleared ++ [LayerKind.webgpuL], [])
    else if requested = GuiValue.str "webgl" ∨ requested = GuiValue.str "webgpu" then
      (cleared ++ [LayerKind.webglL], [webgpuFailWarn])
    else (cleared ++ [LayerKind.canvasL], [webgpuFailWarn])
  else if requested = GuiValue.str "webgl" ∨ requested = GuiValue.str "webgpu" then
    (cleared ++ [LayerKind.webglL], [])
  else (cleared ++ [LayerKind.canvasL], [])

/-- One completed re-evaluation, viewed as a transformation of the map's
layer collection. -/
def regenerateStep (rv : Option GuiValue) (cfg : RendererConfig) (ls : List LayerKind) :
    List LayerKind :=
  (regenerateLayer rv cfg ls).1

/-- Claim C1 as stated: with requested mode `"webgpu"` and no WebGPU
construction callback supplied, the selector falls through directly to the
canvas builder. -/
def claimC1 : Prop :=
  ∀ (cfg : RendererConfig) (prior : List LayerKind),
    cfg.webgpuAvailable = false →
    (regenerateLayer (some (GuiValue.str "webgpu")) cfg prior).1 = [LayerKind.canvasL]

/-- Decimal digit characters are recognised by `Char.isDigit`. -/
theorem digitChar_isDigit : ∀ d, d < 10 → (Nat.digitChar d).isDigit = true := by decide

/-- `Char.toNat - 48` inverts `Nat.digitChar` on decimal digits. -/
theorem digitChar_val : ∀ d, d < 10 → (Nat.digitChar d).toNat - 48 = d := by decide

/-- With enough fuel, `natToCharsAux` emits exactly the base-10 digits of `n`,
most significant first, in front of the accumulator. -/
theorem natToCharsAux_eq : ∀ (fuel n : ℕ), n ≤ fuel → ∀ (acc : List Char),
    natToCharsAux fuel n acc = ((Nat.digits 10 n).reverse.map Nat.digitChar) ++ acc := by
  intro fuel
  induction fuel with
  | zero =>
    intro n hn acc
    interval_cases n
    simp [natToCharsAux]
  | succ f ih =>
    intro n hn acc
    match n with
    | 0 => simp [natToCharsAux]
    | m + 1 =>
      have hdiv : (m + 1) / 10 ≤ f := by
        have := Nat.div_lt_self (Nat.succ_pos m) (by norm_num : 1 < 10)
        omega
      rw [show natToCharsAux (f + 1) (m + 1) acc
            = natToCharsAux f ((m + 1) / 10) (Nat.digitChar ((m + 1) % 10) :: acc) from rfl]
      rw [ih _ hdiv _]
      rw [Nat.digits_def' (by norm_num : 1 < 10) (Nat.succ_pos m)]
      simp [List.reverse_cons, List.map_append]

/-- Folding the decimal-scanner step over rendered digits recovers the
number. -/
theorem foldl_digitChars : ∀ (l : List ℕ), (∀ d ∈ l, d < 10) → ∀ a : ℕ,
    List.foldl (fun acc c => acc * 10 + (c.toNat - 48)) a (l.reverse.map Nat.digitChar)
      = a * 10 ^ l.length + Nat.ofDigits 10 l := by
  intro l
  induction l with
  | nil => intro _ a; simp
  | cons d t ih =>
    intro hl a
    have hd : d < 10 := hl d (List.mem_cons_self d t)
    have ht : ∀ x ∈ t, x < 10 := fun x hx => hl x (List.mem_cons_of_mem d hx)
    simp only [List.reverse_cons, List.map_append, List.map_cons, List.map_nil,
      List.foldl_append, List.foldl_cons, List.foldl_nil]
    rw [ih ht a, digitChar_val d hd, Nat.ofDigits_cons, List.length_cons, pow_succ]
    ring

/-- Scanning the rendered digits of `n` gives back `n`. -/
theorem digitsToNat_natToChars (n : ℕ) : digitsToNat (natToChars n) = n := by
  by_cases h : n = 0
  · subst h; rfl
  · rw [natToChars, if_neg h, natToCharsAux_eq n n le_rfl [], List.append_nil]
    unfold digitsToNat
    rw [foldl_digitChars (Nat.digits 10 n)
      (fun d hd => Nat.digits_lt_base (by norm_num) hd) 0]
    simp [Nat.ofDigits_digits]

/-- Every character rendered by `natToChars` is a decimal digit. -/
theorem natToChars_isDigit (n : ℕ) : ∀ c ∈ natToChars n, c.isDigit = true := by
  by_cases h : n = 0
  · subst h; intro c hc; simp [natToChars] at hc; subst hc; decide
  · intro c hc
    rw [natToChars, if_neg h, natToCharsAux_eq n n le_rfl [], List.append_nil] at hc
    simp only [List.mem_map, List.mem_reverse] at hc
    obtain ⟨d, hd, rfl⟩ := hc
    exact digitChar_isDigit d (Nat.digits_lt_base (by norm_num) hd)

/-- `natToChars` never renders an empty string. -/
theorem natToChars_ne_nil (n : ℕ) : natToChars n ≠ [] := by
  by_cases h : n = 0
  · subst h; simp [natToChars]
  · rw [natToChars, if_neg h, natToCharsAux_eq n n le_rfl [], List.append_nil]
    simp [h, Nat.digits_ne_nil_iff_ne_zero]

/-- `takeWhile` keeps a list all of whose elements satisfy the test. -/
theorem takeWhile_all {p : Char → Bool} : ∀ (l : List Char), (∀ c ∈ l, p c = true) →
    l.takeWhile p = l := by
  intro l
  induction l with
  | nil => intro _; rfl
  | cons c t ih =>
    intro h
    rw [List.takeWhile_cons, h c (List.mem_cons_self c t),
      ih fun x hx => h x (List.mem_cons_of_mem c hx)]
    rfl

/-- `dropWhile` empties a list all of whose elements satisfy the test. -/
theorem dropWhile_all {p : Char → Bool} : ∀ (l : List Char), (∀ c ∈ l, p c = true) →
    l.dropWhile p = [] := by
  intro l
  induction l with
  | nil => intro _; rfl
  | cons c t ih =>
    intro h
    rw [List.dropWhile_cons, h c (List.mem_cons_self c t)]
    exact ih fun x hx => h x (List.mem_cons_of_mem c hx)

/-- A string of digits carries no sign. -/
theorem stripSign_digits (cs : List Char) (hd : ∀ c ∈ cs, c.isDigit = true) :
    stripSign cs = (false, cs) := by
  cases cs with
  | nil => rfl
  | cons c t =>
    have h1 : c.isDigit = true := hd c (List.mem_cons_self c t)
    have h2 : ¬(c = '-') := by rintro rfl; exact absurd h1 (by decide)
    have h3 : ¬(c = '+') := by rintro rfl; exact absurd h1 (by decide)
    simp [stripSign, h2, h3]

/-- On a nonempty all-digit character list the magnitude scanner returns the
scanned natural number. -/
theorem parseMag_digits (cs : List Char) (hne : cs ≠ []) (hd : ∀ c ∈ cs, c.isDigit = true) :
    parseMag cs = some ((digitsToNat cs : ℚ)) := by
  simp only [parseMag]
  rw [takeWhile_all cs hd, dropWhile_all cs hd]
  cases cs with
  | nil => exact absurd rfl hne
  | cons c t => rfl

/-- `jsParseFloat` on a nonempty all-digit string returns the scanned natural
number. -/
theorem jsParseFloat_digits (cs : List Char) (hne : cs ≠ []) (hd : ∀ c ∈ cs, c.isDigit = true) :
    jsParseFloat (String.mk cs) = some ((digitsToNat cs : ℚ)) := by
  simp only [jsParseFloat, show (String.mk cs).data = cs from rfl, stripSign_digits cs hd]
  rw [parseMag_digits cs hne hd]
  rfl

/-- Numeric round trip: decoding an encoded integer value recovers it
(`parseFloat(v.toString()) === v`). -/
theorem jsParseFloat_intToString (n : ℤ) : jsParseFloat (intToString n) = some ((n : ℚ)) := by
  by_cases h : n < 0
  · rw [intToString, if_pos h]
    simp only [jsParseFloat,
      show (String.mk ('-' :: natToChars n.natAbs)).data = '-' :: natToChars n.natAbs from rfl,
      show stripSign ('-' :: natToChars n.natAbs) = (true, natToChars n.natAbs) from by
        simp [stripSign]]
    rw [parseMag_digits _ (natToChars_ne_nil _) (natToChars_isDigit _)]
    rw [digitsToNat_natToChars]
    have hq : ((n.natAbs : ℚ)) = -(n : ℚ) := by
      have h1 : ((n.natAbs : ℤ) : ℚ) = ((-n : ℤ) : ℚ) :=
        congrArg (fun z : ℤ => (z : ℚ)) (Int.ofNat_natAbs_of_nonpos h.le)
      rw [Int.cast_natCast, Int.cast_neg] at h1
      exact h1
    simp [hq]
  · rw [intToString, if_neg h]
    rw [jsParseFloat_digits _ (natToChars_ne_nil _) (natToChars_isDigit _)]
    rw [digitsToNat_natToChars]
    have hq : ((n.natAbs : ℚ)) = (n : ℚ) := by
      have h1 : ((n.natAbs : ℤ) : ℚ) = (n : ℚ) :=
        congrArg (fun z : ℤ => (z : ℚ)) (Int.natAbs_of_nonneg (not_lt.mp h))
      rw [Int.cast_natCast] at h1
      exact h1
    rw [hq]

/-- C1: the claim that with requested mode `"webgpu"` and no WebGPU callback
the selector falls through directly to the canvas builder is false: the
`requested === 'webgl' || requested === 'webgpu'` branch (line 476) sends the
absent-capability case to the WebGL builder.  Concretely, with WebGPU
unavailable the resulting layer list is `[webglL]`, not `[canvasL]`. -/
theorem rendererAbsentWebgpuNotCanvas : ¬ claimC1 := by
  intro h
  exact absurd (h { webgpuAvailable := false, webgpuSucceeds := false } [] rfl) (by decide)

/-- C1 (amended): for every renderer re-evaluation where the requested mode is
`"webgpu"` and no WebGPU construction callback was supplied, the selector
invokes the WebGL builder — an absent WebGPU capability takes the same WebGL
path as a failed construction attempt. -/
theorem rendererAbsentWebgpuUsesWebgl (cfg : RendererConfig) (prior : List LayerKind)
    (h : cfg.webgpuAvailable = false) :
    (regenerateLayer (some (GuiValue.str "webgpu")) cfg prior).1 = [LayerKind.webglL] := by
  rcases cfg with ⟨a, s⟩
  dsimp only at h
  subst h
  cases s <;> rfl

/-- Witness: the amended C1 theorem applied at a concrete configuration with
no WebGPU callback. -/
theorem rendererAbsentWebgpuUsesWebgl_witness :
    (regenerateLayer (some (GuiValue.str "webgpu"))
      { webgpuAvailable := false, webgpuSucceeds := false } []).1 = [LayerKind.webglL] :=
  rendererAbsentWebgpuUsesWebgl { webgpuAvailable := false, webgpuSucceeds := false } [] rfl

/-- C2: the claim that external URL changes update the widget and call
`onChange` exactly when the decoded token differs from the live value and lies
within the domain is false: the enum handler re-stores, refreshes and calls
the callback even when the token equals the live value. -/
theorem trackClaimCounterexample : ¬ claimC2 := by
  intro h
  exact absurd (h.1 ["canvas"] "canvas" "canvas") (by decide)

/-- C2 (amended): on an external URL change, the enum handler updates the
stored value and the widget display and calls `onChange(token, false)` exactly
when the token is in the allowed set — regardless of whether it differs from
the live value — while the boolean/numeric handler always calls
`onChange(decoded, false)` with no domain check and never updates the stored
value or the widget display. -/
theorem trackHandlersBehavior (allowed : List String) (live : GuiValue) (tok : String)
    (spec : ParamSpec) :
    ((selectTrack allowed live tok).calls = [(GuiValue.str tok, false)] ↔ tok ∈ allowed)
    ∧ ((selectTrack allowed live tok).displayUpdated = true ↔ tok ∈ allowed)
    ∧ (tok ∈ allowed → (selectTrack allowed live tok).stored = GuiValue.str tok)
    ∧ (tok ∉ allowed → selectTrack allowed live tok =
        { stored := live, displayUpdated := false, calls := [] })
    ∧ (paramTrack spec live tok).calls = [(decodeParamToken spec tok, false)]
    ∧ (paramTrack spec live tok).stored = live
    ∧ (paramTrack spec live tok).displayUpdated = false := by
  unfold selectTrack paramTrack
  by_cases h : tok ∈ allowed <;> simp [h]

/-- Witness: the amended C2 theorem applied at a concrete allowed token. -/
theorem trackHandlersBehavior_witness :
    (selectTrack ["webgl"] (GuiValue.str "canvas") "webgl").stored = GuiValue.str "webgl" :=
  (trackHandlersBehavior ["webgl"] (GuiValue.str "canvas") "webgl"
    (ParamSpec.toggle "yes" "no")).2.2.1 (by decide)

/-- C3: the claim that an out-of-domain token hydrates to the supplied default
is false for numeric parameters: `registerGuiParameter` stores
`parseFloat(token)` with no range check, so the token `"99999"` against the
declared range `(1, 20000, 1)` with default `10` hydrates to `99999`. -/
theorem hydrationClaimCounterexample : ¬ claimC3 := by
  intro h
  exact absurd (h 1 20000 1 (GuiValue.num 10) "99999" 99999 (by decide) (by decide)) (by decide)

/-- C3 (amended): only enum registrations validate the domain — the initial
value is the URL token exactly when it is present, non-empty and in the
allowed set, else the default.  Boolean and numeric registrations decode any
present token unconditionally (numeric via `parseFloat`, which may yield `NaN`
or an out-of-range number; boolean by comparison with the true-token); only an
absent token yields the supplied default. -/
theorem hydrationBehavior (lo hi st : ℚ) (dflt : GuiValue) (tTok fTok : String)
    (allowed : List String) (d tok : String) :
    hydrateInitialParam (ParamSpec.numeric lo hi st) dflt none = dflt
    ∧ hydrateInitialParam (ParamSpec.toggle tTok fTok) dflt none = dflt
    ∧ selectInitial allowed d none = d
    ∧ hydrateInitialParam (ParamSpec.numeric lo hi st) dflt (some tok)
        = numOf (jsParseFloat tok)
    ∧ hydrateInitialParam (ParamSpec.toggle tTok fTok) dflt (some tok)
        = GuiValue.bool (tok == tTok)
    ∧ (¬(tok ≠ "" ∧ tok ∈ allowed) → selectInitial allowed d (some tok) = d)
    ∧ (tok ≠ "" → tok ∈ allowed → selectInitial allowed d (some tok) = tok) := by
  refine ⟨rfl, rfl, rfl, rfl, rfl, ?_, ?_⟩
  · intro h; simp [selectInitial, h]
  · intro h1 h2; simp [selectInitial, h1, h2]

/-- Witness: the amended C3 theorem applied to an out-of-set enum token, which
hydrates to the default. -/
theorem hydrationBehavior_witness :
    selectInitial ["canvas", "webgl", "webgpu"] "canvas" (some "bogus") = "canvas" :=
  (hydrationBehavior 1 20000 1 (GuiValue.num 10) "yes" "no" ["canvas", "webgl", "webgpu"]
    "canvas" "bogus").2.2.2.2.2.1 (by decide)

/-- Auxiliary: intermediate `change` events of a slider produce no URL writes
and no callback calls, since numeric registrations attach only an
`onFinishChange` listener. -/
theorem numeric_changes_silent (id : String) (vs : List ℤ) :
    handlerWrites (numericOnEvent id) (vs.map NumericEvent.change) = []
    ∧ handlerCalls (numericOnEvent id) (vs.map NumericEvent.change) = [] := by
  induction vs with
  | nil => exact ⟨rfl, rfl⟩
  | cons v t ih => simpa [handlerWrites, handlerCalls, numericOnEvent] using ih

/-- Concatenating event streams concatenates the produced URL writes. -/
theorem handlerWrites_append {E C : Type} (h : E → List (String × String) × List C)
    (l₁ l₂ : List E) :
    handlerWrites h (l₁ ++ l₂) = handlerWrites h l₁ ++ handlerWrites h l₂ := by
  induction l₁ with
  | nil => rfl
  | cons e t ih => simp [handlerWrites, ih]

/-- Concatenating event streams concatenates the produced callback calls. -/
theorem handlerCalls_append {E C : Type} (h : E → List (String × String) × List C)
    (l₁ l₂ : List E) :
    handlerCalls h (l₁ ++ l₂) = handlerCalls h l₁ ++ handlerCalls h l₂ := by
  induction l₁ with
  | nil => rfl
  | cons e t ih => simp [handlerCalls, ih]

/-- C4: a numeric parameter writes its encoded token to the URL only when the
edit interaction finishes — a drag through any intermediate values produces no
writes, and the completed drag produces exactly one write of the final value —
while a boolean parameter writes already at the `change` event and an enum
parameter writes once per selection interaction; each committed edit produces
exactly one `onChange(newValue, false)` call. -/
theorem paramCommitPolicy (id : String) (mids : List ℤ) (final : ℤ)
    (tTok fTok : String) (b : Bool) (s : String) :
    handlerWrites (numericOnEvent id) (mids.map NumericEvent.change) = []
    ∧ handlerWrites (numericOnEvent id) (sliderDrag mids final) = [(id, intToString final)]
    ∧ handlerCalls (numericOnEvent id) (sliderDrag mids final) = [(final, false)]
    ∧ handlerWrites (toggleOnEvent id tTok fTok) [ToggleEvent.change b]
        = [(id, encodeToggle tTok fTok b)]
    ∧ handlerWrites (toggleOnEvent id tTok fTok) (checkboxToggle b)
        = [(id, encodeToggle tTok fTok b)]
    ∧ handlerCalls (toggleOnEvent id tTok fTok) (checkboxToggle b) = [(b, false)]
    ∧ handlerWrites (selectOnEvent id) (dropdownSelect s) = [(id, s)]
    ∧ handlerCalls (selectOnEvent id) (dropdownSelect s) = [(s, false)] := by
  refine ⟨(numeric_changes_silent id mids).1, ?_, ?_, rfl, rfl, rfl, rfl, rfl⟩
  · rw [sliderDrag, handlerWrites_append, (numeric_changes_silent id mids).1]
    rfl
  · rw [sliderDrag, handlerCalls_append, (numeric_changes_silent id mids).2]
    rfl

/-- C5: round-trip law for all three URL encodings.  Numeric values (the
integers of this repository's declared slider domains) satisfy
`parseFloat(v.toString()) = v` and re-encoding the decoded token reproduces
the token; the two-token boolean mapping round-trips whenever the two declared
tokens are distinct; the enum mapping is the identity on allowed tokens. -/
theorem roundTripLaw (lo hi n : ℤ) (hlo : lo ≤ n) (hhi : n ≤ hi)
    (tTok fTok : String) (hne : tTok ≠ fTok)
    (allowed : List String) (tok : String) (hmem : tok ∈ allowed) (b : Bool) :
    jsParseFloat (intToString n) = some ((n : ℚ))
    ∧ jsNumToString ((n : ℚ)) = some (intToString n)
    ∧ decodeToggle tTok (encodeToggle tTok fTok b) = b
    ∧ encodeToggle tTok fTok (decodeToggle tTok tTok) = tTok
    ∧ encodeToggle tTok fTok (decodeToggle tTok fTok) = fTok
    ∧ decodeSelect (encodeSelect tok) = tok
    ∧ encodeSelect (decodeSelect tok) = tok := by
  have hbeq : (fTok == tTok) = false := by
    simp only [beq_eq_false_iff_ne, ne_eq]
    exact fun hcontra => hne hcontra.symm
  refine ⟨jsParseFloat_intToString n, ?_, ?_, ?_, ?_, rfl, rfl⟩
  · simp [jsNumToString, Rat.den_intCast, Rat.num_intCast]
  · cases b
    · simp [decodeToggle, encodeToggle, hbeq]
    · simp [decodeToggle, encodeToggle]
  · simp [decodeToggle, encodeToggle]
  · simp [decodeToggle, encodeToggle, hbeq]

/-- Witness: the round-trip law at the `count` parameter's domain `(1, 20000)`
with value `750`, the `performance` toggle tokens `yes`/`no`, and the
`renderer` enum. -/
theorem roundTripLaw_witness :
    jsParseFloat (intToString 750) = some ((750 : ℤ) : ℚ)
    ∧ jsNumToString (((750 : ℤ) : ℚ)) = some (intToString 750)
    ∧ decodeToggle "yes" (encodeToggle "yes" "no" true) = true
    ∧ encodeToggle "yes" "no" (decodeToggle "yes" "yes") = "yes"
    ∧ encodeToggle "yes" "no" (decodeToggle "yes" "no") = "no"
    ∧ decodeSelect (encodeSelect "canvas") = "canvas"
    ∧ encodeSelect (decodeSelect "canvas") = "canvas" :=
  roundTripLaw 1 20000 750 (by decide) (by decide) "yes" "no" (by decide)
    ["canvas", "webgl", "webgpu"] "canvas" (by decide) true

/-- C6: when the requested mode is `"webgpu"`, a WebGPU callback exists and
its construction attempt fails, the selector falls back to the WebGL builder:
exactly one WebGL layer and zero WebGPU layers result, and the failure is
reported only through the diagnostic warning sink (the caught exception never
escapes `regenerateLayer`). -/
theorem webgpuFailureFallsBack (cfg : RendererConfig) (prior : List LayerKind)
    (hA : cfg.webgpuAvailable = true) (hS : cfg.webgpuSucceeds = false) :
    ((regenerateLayer (some (GuiValue.str "webgpu")) cfg prior).1.count LayerKind.webglL = 1)
    ∧ ((regenerateLayer (some (GuiValue.str "webgpu")) cfg prior).1.count LayerKind.webgpuL = 0)
    ∧ (regenerateLayer (some (GuiValue.str "webgpu")) cfg prior).2 = [webgpuFailWarn] := by
  rcases cfg with ⟨a, s⟩
  dsimp only at hA hS
  subst hA
  subst hS
  exact ⟨rfl, rfl, rfl⟩

/-- Witness: the C6 theorem applied at a concrete always-failing WebGPU
configuration. -/
theorem webgpuFailureFallsBack_witness :
    ((regenerateLayer (some (GuiValue.str "webgpu"))
        { webgpuAvailable := true, webgpuSucceeds := false } []).1.count LayerKind.webglL = 1)
    ∧ ((regenerateLayer (some (GuiValue.str "webgpu"))
        { webgpuAvailable := true, webgpuSucceeds := false } []).1.count LayerKind.webgpuL = 0)
    ∧ (regenerateLayer (some (GuiValue.str "webgpu"))
        { webgpuAvailable := true, webgpuSucceeds := false } []).2 = [webgpuFailWarn] :=
  webgpuFailureFallsBack { webgpuAvailable := true, webgpuSucceeds := false } [] rfl rfl

/-- Auxiliary: a single completed re-evaluation always leaves exactly one
layer, whatever the requested value, configuration and prior layers: the
collection is cleared first and exactly one builder then adds its layer. -/
theorem regenerateStep_length (rv : Option GuiValue) (cfg : RendererConfig)
    (ls : List LayerKind) : (regenerateStep rv cfg ls).length = 1 := by
  rcases rv with _ | v <;>
    simp only [regenerateStep, regenerateLayer] <;> split_ifs <;> rfl

/-- C7: renderer re-evaluation is idempotent on the map's layer collection —
every completed re-evaluation holds the layer count at one regardless of the
prior contents, and any number of repeated re-evaluations with the same
requested mode never accumulates more than one layer. -/
theorem rendererIdempotent (rv : Option GuiValue) (cfg : RendererConfig) (n : ℕ) :
    (∀ ls, (regenerateStep rv cfg ls).length ≤ 1)
    ∧ ((regenerateStep rv cfg)^[n] []).length ≤ 1 := by
  refine ⟨fun ls => le_of_eq (regenerateStep_length rv cfg ls), ?_⟩
  cases n with
  | zero => simp
  | succ m =>
    rw [Function.iterate_succ_apply']
    exact le_of_eq (regenerateStep_length rv cfg _)

/-- C8: both registration functions invoke `onChange(initialValue, true)`
exactly once, synchronously within the registration's own effect trace,
before the registration returns (the call strictly precedes the trailing
`finished` effect). -/
theorem registerInitialCallbackOnce (spec : ParamSpec) (dflt : GuiValue)
    (linkTok : Option String) (allowed : List String) (d : String) (fromUrl : Option String) :
    (registerGuiParameterTrace spec dflt linkTok).filter isInitialCall
        = [RegEffect.invokeCallback (hydrateInitialParam spec dflt linkTok) true]
    ∧ ((registerGuiParameterTrace spec dflt linkTok).dropLast.filter isInitialCall).length = 1
    ∧ (registerGuiParameterTrace spec dflt linkTok).getLast? = some RegEffect.finished
    ∧ (registerGuiSelectTrace allowed d fromUrl).filter isInitialCall
        = [RegEffect.invokeCallback (GuiValue.str (selectInitial allowed d fromUrl)) true]
    ∧ ((registerGuiSelectTrace allowed d fromUrl).dropLast.filter isInitialCall).length = 1
    ∧ (registerGuiSelectTrace allowed d fromUrl).getLast? = some RegEffect.finished :=
  ⟨rfl, rfl, rfl, rfl, rfl, rfl⟩

/-- C9: `getGuiParameterValue` returns the stored live value for a registered
id; for an unregistered id it reads the raw URL token best-effort in the order
numeric parse, boolean literal parse, raw string, and returns `none` when no
token is present (the embedding is a total function, so no call can throw). -/
theorem currentValueBehavior (stored : Option GuiValue) (urlTok : Option String)
    (v : GuiValue) (t : String) (q : ℚ) :
    (stored = some v → getGuiParameterValue stored urlTok = some v)
    ∧ (stored = none → urlTok = none → getGuiParameterValue stored urlTok = none)
    ∧ (stored = none → urlTok = some t → jsParseFloat t = some q →
        getGuiParameterValue stored urlTok = some (GuiValue.num q))
    ∧ (stored = none → urlTok = some t → jsParseFloat t = none →
        (t = "true" ∨ t = "false") →
        getGuiParameterValue stored urlTok = some (GuiValue.bool (t == "true")))
    ∧ (stored = none → urlTok = some t → jsParseFloat t = none →
        t ≠ "true" → t ≠ "false" → t ≠ "" →
        getGuiParameterValue stored urlTok = some (GuiValue.str t)) := by
  refine ⟨?_, ?_, ?_, ?_, ?_⟩
  · rintro rfl; rfl
  · rintro rfl rfl; rfl
  · rintro rfl rfl h; simp [getGuiParameterValue, h]
  · rintro rfl rfl h hb
    rcases hb with rfl | rfl <;> decide
  · rintro rfl rfl h h1 h2 h3
    simp [getGuiParameterValue, h, h1, h2, h3]

/-- Witness: `getGuiParameterValue` on an unregistered id whose token is a
plain string. -/
theorem currentValueBehavior_witness :
    getGuiParameterValue none (some "webgl") = some (GuiValue.str "webgl") :=
  (currentValueBehavior none (some "webgl") GuiValue.fn "webgl" 0).2.2.2.2 rfl rfl
    (by decide) (by decide) (by decide) (by decide)

/-- C10: for an unregistered id whose URL token is a non-numeric string other
than the literals `true`/`false` (such as the boolean tokens `yes`/`no`),
`getGuiParameterValue` returns the raw string token, which is truthy —
so a consumer reading such a boolean parameter before registration cannot
distinguish the disabled token from the enabled one by truthiness. -/
theorem unregisteredStringTruthy (t : String) (h1 : jsParseFloat t = none)
    (h2 : t ≠ "true") (h3 : t ≠ "false") (h4 : t ≠ "") :
    getGuiParameterValue none (some t) = some (GuiValue.str t)
    ∧ jsTruthy (GuiValue.str t) = true := by
  constructor
  · simp [getGuiParameterValue, h1, h2, h3, h4]
  · simp [jsTruthy, h4]

/-- Witness: both `performance` tokens `yes` and `no` come back as truthy
strings, so their truthiness is identical. -/
theorem unregisteredStringTruthy_witness :
    (getGuiParameterValue none (some "yes") = some (GuiValue.str "yes")
      ∧ jsTruthy (GuiValue.str "yes") = true)
    ∧ (getGuiParameterValue none (some "no") = some (GuiValue.str "no")
      ∧ jsTruthy (GuiValue.str "no") = true) :=
  ⟨unregisteredStringTruthy "yes" (by decide) (by decide) (by decide) (by decide),
   unregisteredStringTruthy "no" (by decide) (by decide) (by decide) (by decide)⟩
